import Mathlib

/-!
Shallow embedding of `src/EXAMPLE/__init__.py`, the `SERVICE_TAG` service
plugin template of the devine-dl/example-service repository, together with
theorems settling the frozen claims about it.

The file defines a `SERVICE_TAG` class inheriting from the (external, unseen)
host base class `Service`.  Its members are:
  * class attributes `ALIASES` and `GEOFENCE`;
  * a static `cli` method registered as a click command named "SERVICE_TAG"
    with one positional `title` argument of type `str`, whose body is
    `return SERVICE_TAG(ctx, **kwargs)`;
  * a constructor that runs `self.title = title` and then
    `super().__init__(ctx)`;
  * `authenticate`, whose body is `super().authenticate(cookies, credential)`
    followed by a bare ellipsis;
  * stub hooks `get_session`, `get_titles`, `get_tracks`, `get_chapters`,
    `get_widevine_service_certificate`, `get_widevine_license` and
    `get_api_config_data`, each with a bare-ellipsis body (so each returns
    the Python value `None`).
External host-framework types (`click.Context`, `MozillaCookieJar`,
`Credential`, `Movies`/`Series`, `Tracks`, `Chapter`, `AnyTrack`) are opaque
here; they are modelled as atoms carrying an identifier.
-/

namespace ExampleService

/-- Opaque model of a `click.Context` value (external, from the click
library; its structure is not observable in the source file). -/
structure ClickContext where
  ctxId : Nat
deriving DecidableEq, Repr

/-- Opaque model of an `http.cookiejar.MozillaCookieJar` value. -/
structure MozillaCookieJar where
  jarId : Nat
deriving DecidableEq, Repr

/-- Opaque model of a `devine.core.credential.Credential` value. -/
structure Credential where
  credId : Nat
deriving DecidableEq, Repr

/-- Opaque model of a title object: a value of the external union type
`Union[Movies, Series]` from `devine.core.titles`. -/
inductive Title where
  | movies (objId : Nat)
  | series (objId : Nat)
deriving DecidableEq, Repr

/-- Opaque model of a `devine.core.tracks.Chapter` value. -/
structure Chapter where
  chapterId : Nat
deriving DecidableEq, Repr

/-- Opaque model of a `devine.core.constants.AnyTrack` value. -/
structure AnyTrack where
  trackId : Nat
deriving DecidableEq, Repr

/-- Model of the Python values the file's methods can produce or that their
declared return type hints mention: `None`, `bytes`, `str`, a list of
`Chapter`, a `Movies`/`Series` value, and a `Tracks` collection. -/
inductive PyValue where
  | pyNone
  | pyBytes (b : List Nat)
  | pyStr (s : String)
  | pyChapterList (cs : List Chapter)
  | pyTitles (t : Title)
  | pyTracks (ts : List AnyTrack)
deriving DecidableEq, Repr

/-- `ALIASES` class attribute: `("fullname", "altname", "commonname",
"and so on...")`. -/
def ALIASES : List String := ["fullname", "altname", "commonname", "and so on..."]

/-- `GEOFENCE` class attribute: `("us",)`. -/
def GEOFENCE : List String := ["us"]

/-! ## The constructor, as a sequence of primitive steps

`SERVICE_TAG.__init__` consists of exactly two statements, in this order:
`self.title = title` and `super().__init__(ctx)`.  We embed the body as a
list of primitive steps acting on an explicit instance state, so that the
state visible at the moment of the base-initializer call can be examined. -/

/-- A primitive statement of `SERVICE_TAG.__init__`: either the attribute
assignment `self.title = title` or the delegation `super().__init__(ctx)`. -/
inductive InitStep where
  | setTitle (t : String)
  | superInit (ctx : ClickContext)
deriving DecidableEq, Repr

/-- The instance state an execution of the constructor builds: the `title`
attribute (absent before assignment) and the list of contexts passed to the
base initializer `Service.__init__`, in call order. -/
structure InstanceState where
  title : Option String
  baseInitCalls : List ClickContext
deriving DecidableEq, Repr

/-- The state of a freshly allocated, not yet initialized instance. -/
def initialState : InstanceState := { title := none, baseInitCalls := [] }

/-- Effect of one primitive constructor step on the instance state. -/
def runStep (s : InstanceState) : InitStep → InstanceState
  | InitStep.setTitle t => { s with title := some t }
  | InitStep.superInit ctx => { s with baseInitCalls := s.baseInitCalls ++ [ctx] }

/-- Run a sequence of constructor steps from a given state. -/
def runSteps (s : InstanceState) (prog : List InitStep) : InstanceState :=
  prog.foldl runStep s

/-- The body of `SERVICE_TAG.__init__(self, ctx, title)` as the source
writes it: first `self.title = title`, then `super().__init__(ctx)`. -/
def initProgram (ctx : ClickContext) (title : String) : List InitStep :=
  [InitStep.setTitle title, InitStep.superInit ctx]

/-- `SERVICE_TAG(ctx, title)`: the instance state produced by running the
constructor body on a fresh instance. -/
def SERVICE_TAG_mk (ctx : ClickContext) (title : String) : InstanceState :=
  runSteps initialState (initProgram ctx title)

/-! ## The click command `cli`

Decorators: `@click.command(name="SERVICE_TAG", short_help="https://website.com",
help=__doc__)`, `@click.argument("title", type=str)`, `@click.pass_context`.
Body: `return SERVICE_TAG(ctx, **kwargs)`. -/

/-- The type of a click argument, as given by its `type=` option. -/
inductive ArgType where
  | str
  | int
deriving DecidableEq, Repr

/-- A positional click argument declared with `@click.argument`. -/
structure ClickArgument where
  name : String
  argType : ArgType
deriving DecidableEq, Repr

/-- The registration data of a `@click.command`. -/
structure ClickCommand where
  name : String
  shortHelp : String
  arguments : List ClickArgument
  passContext : Bool
deriving DecidableEq, Repr

/-- The command registration of `SERVICE_TAG.cli`, read off its
decorators. -/
def cli_command : ClickCommand :=
  { name := "SERVICE_TAG"
  , shortHelp := "https://website.com"
  , arguments := [{ name := "title", argType := ArgType.str }]
  , passContext := true }

/-- Python call `SERVICE_TAG(ctx, **kwargs)`: binding the keyword arguments
against the constructor signature `(self, ctx, title: str)`.  The binding
succeeds exactly when `kwargs` supplies the single parameter `title`
(anything else raises a `TypeError`, modelled as `none`). -/
def SERVICE_TAG_call (ctx : ClickContext) (kwargs : List (String × String)) :
    Option InstanceState :=
  match kwargs with
  | [(k, v)] => if k = "title" then some (SERVICE_TAG_mk ctx v) else none
  | _ => none

/-- Body of `SERVICE_TAG.cli(ctx, **kwargs)`:
`return SERVICE_TAG(ctx, **kwargs)`. -/
def cli (ctx : ClickContext) (kwargs : List (String × String)) :
    Option InstanceState :=
  SERVICE_TAG_call ctx kwargs

/-! ## `authenticate`

Body: `super().authenticate(cookies, credential)` then a bare ellipsis.
The base `Service.authenticate` is external and unseen, so it enters as a
parameter; the embedding records the outcome together with the list of
argument pairs delegated to the base method. -/

/-- Outcome of a Python call that either returns `None` or raises an
exception (identified by its class name). -/
inductive AuthOutcome where
  | returnedNone
  | raised (exc : String)
deriving DecidableEq, Repr

/-- `SERVICE_TAG.authenticate(self, cookies=None, credential=None)`:
calls `super().authenticate(cookies, credential)` and then falls off the
ellipsis, returning `None`.  `baseAuthenticate` is the unseen
`Service.authenticate`; the result pairs the call outcome with the list of
argument pairs passed to the base method, in call order. -/
def SERVICE_TAG_authenticate
    (baseAuthenticate : Option MozillaCookieJar → Option Credential → AuthOutcome)
    (cookies : Option MozillaCookieJar) (credential : Option Credential) :
    AuthOutcome × List (Option MozillaCookieJar × Option Credential) :=
  match baseAuthenticate cookies credential with
  | AuthOutcome.raised e => (AuthOutcome.raised e, [(cookies, credential)])
  | AuthOutcome.returnedNone => (AuthOutcome.returnedNone, [(cookies, credential)])

/-! ## The stub hooks

Each of the following methods has a bare-ellipsis body, so an invocation
returns the Python value `None`. -/

/-- `SERVICE_TAG.get_session(self)`: body is a bare ellipsis. -/
def get_session (_self : InstanceState) : PyValue :=
  PyValue.pyNone

/-- `SERVICE_TAG.get_titles(self)`: body is a bare ellipsis. -/
def get_titles (_self : InstanceState) : PyValue :=
  PyValue.pyNone

/-- `SERVICE_TAG.get_tracks(self, title)`: body is a bare ellipsis. -/
def get_tracks (_self : InstanceState) (_title : Title) : PyValue :=
  PyValue.pyNone

/-- `SERVICE_TAG.get_chapters(self, title)`: body is a bare ellipsis. -/
def get_chapters (_self : InstanceState) (_title : Title) : PyValue :=
  PyValue.pyNone

/-- `SERVICE_TAG.get_widevine_service_certificate(self, *, challenge, title,
track)`: body is a bare ellipsis. -/
def get_widevine_service_certificate (_self : InstanceState)
    (_challenge : List Nat) (_title : Title) (_track : AnyTrack) : PyValue :=
  PyValue.pyNone

/-- `SERVICE_TAG.get_widevine_license(self, *, challenge, title, track)`:
body is a bare ellipsis. -/
def get_widevine_license (_self : InstanceState)
    (_challenge : List Nat) (_title : Title) (_track : AnyTrack) : PyValue :=
  PyValue.pyNone

/-- `SERVICE_TAG.get_api_config_data(self, device_id, version)`: body is a
bare ellipsis. -/
def get_api_config_data (_self : InstanceState)
    (_device_id : String) (_version : Nat) : PyValue :=
  PyValue.pyNone

/-! ## Declared return type hints

Predicates stating that a produced Python value conforms to the return type
hints written in the source. -/

/-- Conformance to the hint `list[Chapter]` (of `get_chapters`). -/
def matchesListChapter : PyValue → Bool
  | PyValue.pyChapterList _ => true
  | _ => false

/-- Conformance to the hint `Union[bytes, str]`
(of `get_widevine_service_certificate`). -/
def matchesBytesOrStr : PyValue → Bool
  | PyValue.pyBytes _ => true
  | PyValue.pyStr _ => true
  | _ => false

/-- Conformance to the hint `Optional[Union[bytes, str]]`
(of `get_widevine_license`). -/
def matchesOptBytesOrStr (v : PyValue) : Bool :=
  v = PyValue.pyNone || matchesBytesOrStr v

/-- Conformance to the hint `Union[Movies, Series]` (of `get_titles`). -/
def matchesMoviesOrSeries : PyValue → Bool
  | PyValue.pyTitles _ => true
  | _ => false

/-- Conformance to the hint `Tracks` (of `get_tracks`). -/
def matchesTracks : PyValue → Bool
  | PyValue.pyTracks _ => true
  | _ => false

/-! ## Effect summaries of the method bodies

For the frame claims we record, per method of the class, the write effects
its body performs when invoked: attribute assignments, object
constructions, and delegations to the base class `Service`.  The lists are
read off the source statement by statement. -/

/-- A write effect a method body can perform. -/
inductive Effect where
  | assignAttr (attrName : String)
  | constructObj (clsName : String)
  | superCall (methodName : String)
deriving DecidableEq, Repr

/-- The methods defined in the `SERVICE_TAG` class body. -/
inductive Method where
  | cliMethod
  | initMethod
  | getSession
  | authenticateMethod
  | getTitles
  | getTracks
  | getChapters
  | getWidevineServiceCertificate
  | getWidevineLicense
  | getApiConfigData
deriving DecidableEq, Repr

/-- The effects an invocation of each method performs, statement by
statement.  `cli` executes `SERVICE_TAG(ctx, **kwargs)`, which allocates an
instance and runs `__init__` (assigning `self.title` and delegating to
`Service.__init__`); `__init__` itself assigns `self.title` and delegates;
`authenticate` delegates to `Service.authenticate`; every other body is a
bare ellipsis and performs no effect. -/
def methodEffects : Method → List Effect
  | Method.cliMethod =>
      [Effect.constructObj "SERVICE_TAG", Effect.assignAttr "title",
       Effect.superCall "__init__"]
  | Method.initMethod =>
      [Effect.assignAttr "title", Effect.superCall "__init__"]
  | Method.authenticateMethod =>
      [Effect.superCall "authenticate"]
  | _ => []

/-- A method is a pure stub when its body performs no effect at all. -/
def isPureStub (m : Method) : Bool :=
  methodEffects m = []

/-- The external types referenced by the file (declared elsewhere in the
host framework): `Movies`, `Series`, `Tracks`, `Chapter`, `Credential`,
`AnyTrack`. -/
def externalTypeNames : List String :=
  ["Movies", "Series", "Tracks", "Chapter", "Credential", "AnyTrack"]

/-- Whether a method's body constructs an object of one of the referenced
external types. -/
def constructsExternal (m : Method) : Bool :=
  (methodEffects m).any fun e =>
    match e with
    | Effect.constructObj c => externalTypeNames.contains c
    | _ => false

/-- Whether a method's body assigns an instance attribute. -/
def mutatesInstance (m : Method) : Bool :=
  (methodEffects m).any fun e =>
    match e with
    | Effect.assignAttr _ => true
    | _ => false

/-! ## Claims -/

/-- Claim C1, counterexample: `authenticate` is not a pure stub — its body
delegates to the base class (`super().authenticate(...)`), so not every
method body of `SERVICE_TAG` is free of executable logic. -/
theorem C1_counterexample : isPureStub Method.authenticateMethod = false := by
  decide

/-- Claim C1, amended: the hook methods `get_session`, `get_titles`,
`get_tracks`, `get_chapters`, `get_widevine_service_certificate`,
`get_widevine_license` and `get_api_config_data` are pure stubs performing
no effect, but `cli` constructs a `SERVICE_TAG` instance (running its
constructor), `__init__` assigns `self.title` and delegates to
`Service.__init__`, and `authenticate` delegates to
`Service.authenticate`. -/
theorem C1_stub_methods_and_effectful_methods :
    isPureStub Method.getSession = true ∧
    isPureStub Method.getTitles = true ∧
    isPureStub Method.getTracks = true ∧
    isPureStub Method.getChapters = true ∧
    isPureStub Method.getWidevineServiceCertificate = true ∧
    isPureStub Method.getWidevineLicense = true ∧
    isPureStub Method.getApiConfigData = true ∧
    methodEffects Method.cliMethod =
      [Effect.constructObj "SERVICE_TAG", Effect.assignAttr "title",
       Effect.superCall "__init__"] ∧
    methodEffects Method.initMethod =
      [Effect.assignAttr "title", Effect.superCall "__init__"] ∧
    methodEffects Method.authenticateMethod =
      [Effect.superCall "authenticate"] := by
  decide

/-- Claim C2, counterexample: with both `cookies` and `credential` absent
(`None`), `SERVICE_TAG.authenticate` returns normally whenever the base
`Service.authenticate` does — it raises no `EnvironmentError` of its own. -/
theorem C2_counterexample :
    (SERVICE_TAG_authenticate (fun _ _ => AuthOutcome.returnedNone)
      none none).1 = AuthOutcome.returnedNone := rfl

/-- Claim C2, amended: the template's `authenticate` performs no presence
check on its arguments and never raises on its own; even with both
arguments `None` it returns normally whenever the base method returns
normally.  Raising an `EnvironmentError` on missing cookies/credentials is
only a recommendation stated in the method's comments for plugin authors,
not behavior of the stub. -/
theorem C2_authenticate_never_raises_itself
    (base : Option MozillaCookieJar → Option Credential → AuthOutcome)
    (h : base none none = AuthOutcome.returnedNone) :
    (SERVICE_TAG_authenticate base none none).1 = AuthOutcome.returnedNone := by
  simp [SERVICE_TAG_authenticate, h]

/-- Claim C2, witness for the amended theorem at a concrete base method. -/
theorem C2_authenticate_never_raises_itself_witness :
    ((fun (_ : Option MozillaCookieJar) (_ : Option Credential) =>
        AuthOutcome.returnedNone) none none = AuthOutcome.returnedNone) ∧
    (SERVICE_TAG_authenticate
      (fun (_ : Option MozillaCookieJar) (_ : Option Credential) =>
        AuthOutcome.returnedNone) none none).1 = AuthOutcome.returnedNone :=
  ⟨rfl, C2_authenticate_never_raises_itself
    (fun _ _ => AuthOutcome.returnedNone) rfl⟩

/-- Claim C3: `cli` is registered as a click command named "SERVICE_TAG"
with exactly one positional argument `title` of type `str`, and for every
click context and parsed keyword arguments it forwards both unchanged to
the `SERVICE_TAG` constructor call and returns the constructed instance. -/
theorem C3_cli_registration_and_forwarding :
    cli_command.name = "SERVICE_TAG" ∧
    cli_command.arguments = [{ name := "title", argType := ArgType.str }] ∧
    (∀ (ctx : ClickContext) (kwargs : List (String × String)),
      cli ctx kwargs = SERVICE_TAG_call ctx kwargs) ∧
    (∀ (ctx : ClickContext) (t : String),
      cli ctx [("title", t)] = some (SERVICE_TAG_mk ctx t)) := by
  refine ⟨rfl, rfl, fun ctx kwargs => rfl, fun ctx t => ?_⟩
  simp [cli, SERVICE_TAG_call]

/-- Claim C4: the constructor `SERVICE_TAG(ctx, t)` stores the `title`
argument on the instance (`self.title == t` afterwards) and calls the base
initializer `Service.__init__` with `ctx` exactly once. -/
theorem C4_constructor_stores_title_and_calls_base_once
    (ctx : ClickContext) (t : String) :
    (SERVICE_TAG_mk ctx t).title = some t ∧
    (SERVICE_TAG_mk ctx t).baseInitCalls = [ctx] :=
  ⟨rfl, rfl⟩

/-- Claim C5, counterexample: at a concrete title, `get_chapters` returns
the Python value `None`, not a list of `Chapter` objects. -/
theorem C5_counterexample :
    get_chapters initialState (Title.movies 0) = PyValue.pyNone ∧
    matchesListChapter (get_chapters initialState (Title.movies 0)) = false :=
  ⟨rfl, rfl⟩

/-- Claim C5, amended: `get_chapters` returns `None` for every title — the
stub body is a bare ellipsis.  Returning a (possibly empty) list is an
obligation the comment places on plugin authors, not behavior of the
stub. -/
theorem C5_get_chapters_returns_none (s : InstanceState) (t : Title) :
    get_chapters s t = PyValue.pyNone ∧
    matchesListChapter (get_chapters s t) = false :=
  ⟨rfl, rfl⟩

/-- Claim C6, counterexample: at a concrete challenge/title/track, the
certificate hook returns `None`, which is neither `bytes` nor `str`. -/
theorem C6_counterexample :
    matchesBytesOrStr
      (get_widevine_service_certificate initialState [0] (Title.movies 0)
        { trackId := 0 }) = false := by
  decide

/-- Claim C6, amended: both DRM hooks are unimplemented stubs that return
`None` for every challenge, title and track; no license or certificate
exchange is performed.  `None` conforms to `get_widevine_license`'s
declared `Optional[Union[bytes, str]]` hint but not to
`get_widevine_service_certificate`'s `Union[bytes, str]` hint. -/
theorem C6_drm_stubs_return_none (s : InstanceState) (ch : List Nat)
    (t : Title) (tr : AnyTrack) :
    get_widevine_service_certificate s ch t tr = PyValue.pyNone ∧
    get_widevine_license s ch t tr = PyValue.pyNone ∧
    matchesBytesOrStr (get_widevine_service_certificate s ch t tr) = false ∧
    matchesOptBytesOrStr (get_widevine_license s ch t tr) = true := by
  refine ⟨rfl, rfl, rfl, rfl⟩

/-- Claim C7, counterexample: the constructor `__init__` assigns instance
state (`self.title = title`), so not every operation of the file leaves
instance state unchanged. -/
theorem C7_counterexample : mutatesInstance Method.initMethod = true := by
  decide

/-- Claim C7, amended: no operation of the file constructs an object of the
referenced external types (`Movies`, `Series`, `Tracks`, `Chapter`,
`Credential`, `AnyTrack`), and the stub hooks perform no mutation; but the
constructor assigns the `title` instance attribute, and `cli` constructs a
new `SERVICE_TAG` instance (thereby also performing that assignment). -/
theorem C7_no_external_construction_but_init_mutates :
    (∀ m : Method, constructsExternal m = false) ∧
    mutatesInstance Method.initMethod = true ∧
    mutatesInstance Method.cliMethod = true ∧
    mutatesInstance Method.getSession = false ∧
    mutatesInstance Method.authenticateMethod = false ∧
    mutatesInstance Method.getTitles = false ∧
    mutatesInstance Method.getTracks = false ∧
    mutatesInstance Method.getChapters = false ∧
    mutatesInstance Method.getWidevineServiceCertificate = false ∧
    mutatesInstance Method.getWidevineLicense = false ∧
    mutatesInstance Method.getApiConfigData = false := by
  constructor
  · intro m
    cases m <;> decide
  · decide

/-- Claim C8, counterexample: `get_widevine_license` returns `None`, and
`None` does agree with that hook's declared return type hint
`Optional[Union[bytes, str]]` — so the returned values do not disagree with
the declared hints everywhere. -/
theorem C8_counterexample :
    get_widevine_license initialState [0] (Title.movies 0) { trackId := 0 } =
      PyValue.pyNone ∧
    matchesOptBytesOrStr
      (get_widevine_license initialState [0] (Title.movies 0)
        { trackId := 0 }) = true := by
  refine ⟨rfl, by decide⟩

/-- Claim C8, amended: every required hook — `get_titles`, `get_tracks`,
`get_chapters`, `get_widevine_service_certificate`,
`get_widevine_license` — returns `None` for every input, each body being a
bare ellipsis.  `None` disagrees with the declared return hints of the
first four (`Union[Movies, Series]`, `Tracks`, `list[Chapter]`,
`Union[bytes, str]`) but agrees with `get_widevine_license`'s declared
`Optional[Union[bytes, str]]` hint. -/
theorem C8_required_hooks_return_none (s : InstanceState) (t : Title)
    (ch : List Nat) (tr : AnyTrack) :
    get_titles s = PyValue.pyNone ∧
    get_tracks s t = PyValue.pyNone ∧
    get_chapters s t = PyValue.pyNone ∧
    get_widevine_service_certificate s ch t tr = PyValue.pyNone ∧
    get_widevine_license s ch t tr = PyValue.pyNone ∧
    matchesMoviesOrSeries (get_titles s) = false ∧
    matchesTracks (get_tracks s t) = false ∧
    matchesListChapter (get_chapters s t) = false ∧
    matchesBytesOrStr (get_widevine_service_certificate s ch t tr) = false ∧
    matchesOptBytesOrStr (get_widevine_license s ch t tr) = true := by
  refine ⟨rfl, rfl, rfl, rfl, rfl, rfl, rfl, rfl, rfl, rfl⟩

/-- Claim C9: for every base behavior and every combination of arguments,
`SERVICE_TAG.authenticate` delegates to `Service.authenticate` exactly once
with its arguments unchanged, and its outcome is exactly the base call's
outcome — the subclass validates nothing and raises no error of its own. -/
theorem C9_authenticate_pure_delegation
    (base : Option MozillaCookieJar → Option Credential → AuthOutcome)
    (cookies : Option MozillaCookieJar) (credential : Option Credential) :
    (SERVICE_TAG_authenticate base cookies credential).1 =
      base cookies credential ∧
    (SERVICE_TAG_authenticate base cookies credential).2 =
      [(cookies, credential)] := by
  cases h : base cookies credential <;>
    simp [SERVICE_TAG_authenticate, h]

/-- Claim C10: whenever the constructor body reaches its
`super().__init__(ctx)` step, the `title` attribute is already set to the
constructor's `title` argument — the assignment strictly precedes the base
initializer call. -/
theorem C10_title_set_before_base_init
    (ctx : ClickContext) (t : String) (i : Nat) (c : ClickContext)
    (h : (initProgram ctx t)[i]? = some (InitStep.superInit c)) :
    (runSteps initialState ((initProgram ctx t).take i)).title = some t := by
  cases i with
  | zero => simp [initProgram] at h
  | succ n =>
    cases n with
    | zero => rfl
    | succ m => simp [initProgram] at h

/-- Claim C10, witness at a concrete context, title and step index. -/
theorem C10_title_set_before_base_init_witness :
    (initProgram { ctxId := 0 } "x")[1]? =
      some (InitStep.superInit { ctxId := 0 }) ∧
    (runSteps initialState
      ((initProgram { ctxId := 0 } "x").take 1)).title = some "x" :=
  ⟨rfl, C10_title_set_before_base_init { ctxId := 0 } "x" 1 { ctxId := 0 } rfl⟩

end ExampleService
